import Mathlib

/-!
Shallow embedding of the task model, filter predicate, persistence layer and
AI gateway helpers of `src/app.py` (a Streamlit to-do application), together
with theorems settling the specification claims about them.

Python strings are modelled as Lean `String` (both are sequences of Unicode
code points, so `len` agrees with `String.length`).  The external pieces the
code calls into — the LLM provider transport (`genai`) and the standard
library JSON decoder (`json.loads`) — are not part of this repository, so
they enter the embedding as explicit inputs: the provider call becomes a
`ProviderCall` value (its observed outcome), and `json.loads` becomes a
function argument `loads` returning `Option` (with `none` standing for a
raised decode error).  Everything else is translated directly from the
source.
-/

set_option autoImplicit false

namespace TodoApp

/-- ASCII whitespace recognised by Python `str.strip()`; the app only ever
strips model/provider text, for which the ASCII set is the relevant one. -/
def isPySpace (c : Char) : Bool :=
  c == ' ' || c == '\t' || c == '\n' || c == '\r' || c == '\x0b' || c == '\x0c'

/-- Python `s.strip()`: remove leading and trailing whitespace. -/
def pystrip (s : String) : String :=
  ⟨((s.data.dropWhile isPySpace).reverse.dropWhile isPySpace).reverse⟩

/-- The character set of `ln.strip("-• ")` in `ai_breakdown` (app.py:113). -/
def isBulletChar (c : Char) : Bool :=
  c == '-' || c == '•' || c == ' '

/-- Python `ln.strip("-• ")`: remove leading and trailing bullet characters. -/
def pyStripBullets (s : String) : String :=
  ⟨((s.data.dropWhile isBulletChar).reverse.dropWhile isBulletChar).reverse⟩

/-- Helper for `pyTitle`: walk the characters tracking whether the previous
character was alphabetic (Python: "cased"). -/
def pyTitleAux : List Char → Bool → List Char
  | [], _ => []
  | c :: cs, prevAlpha =>
    (if c.isAlpha then (if prevAlpha then c.toLower else c.toUpper) else c)
      :: pyTitleAux cs c.isAlpha

/-- Python `s.title()`: uppercase each letter that follows a non-letter,
lowercase every other letter (ASCII view, which covers the priority words). -/
def pyTitle (s : String) : String :=
  ⟨pyTitleAux s.data false⟩

/-- Helper for `pySplitlines`, accumulating the current line in reverse. -/
def pySplitlinesAux : List Char → List Char → List String
  | [], acc => if acc.isEmpty then [] else [⟨acc.reverse⟩]
  | '\r' :: '\n' :: rest, acc => ⟨acc.reverse⟩ :: pySplitlinesAux rest []
  | '\n' :: rest, acc => ⟨acc.reverse⟩ :: pySplitlinesAux rest []
  | '\r' :: rest, acc => ⟨acc.reverse⟩ :: pySplitlinesAux rest []
  | c :: rest, acc => pySplitlinesAux rest (c :: acc)

/-- Python `s.splitlines()` over the usual line terminators, with no trailing
empty line. -/
def pySplitlines (s : String) : List String :=
  pySplitlinesAux s.data []

/-- Index of the first occurrence of `c`, if any. -/
def firstIdx (c : Char) : List Char → Option Nat
  | [] => none
  | x :: xs => if x == c then some 0 else (firstIdx c xs).map (· + 1)

/-- Index of the last occurrence of `c`, if any. -/
def lastIdx (c : Char) (cs : List Char) : Option Nat :=
  (firstIdx c cs.reverse).map (fun k => cs.length - 1 - k)

/-- The match of the greedy regex `re.search(r"\x7b.*\x7d", s, re.DOTALL)`
(and its bracket analogue): the span from the first `oc` to the last `cc`,
provided the first `oc` precedes the last `cc`; `none` when the regex fails. -/
def findSpan (oc cc : Char) (s : String) : Option String :=
  match firstIdx oc s.data, lastIdx cc s.data with
  | some i, some j => if i < j then some ⟨(s.data.drop i).take (j - i + 1)⟩ else none
  | _, _ => none

/-- Substring test used to model Python `"title" in s` for a string `s`. -/
def hasSubstr (pat : List Char) : List Char → Bool
  | [] => pat.isEmpty
  | c :: cs => pat.isPrefixOf (c :: cs) || hasSubstr pat cs

/-- JSON values as produced by `json.loads` (numbers collapsed to `Int`:
the claims only ever use a number's truthiness, never its magnitude). -/
inductive Json where
  | null
  | bool (b : Bool)
  | num (n : Int)
  | str (s : String)
  | arr (elems : List Json)
  | obj (fields : List (String × Json))

/-- Python truthiness of a decoded JSON value. -/
def pyTruthy : Json → Bool
  | Json.null => false
  | Json.bool b => b
  | Json.num n => n != 0
  | Json.str s => s != ""
  | Json.arr xs => !xs.isEmpty
  | Json.obj kvs => !kvs.isEmpty

/-- Python equality between a JSON value and a string: only an equal string
compares equal (used for dict lookups keyed by a string). -/
def jsonEqStr (j : Json) (s : String) : Bool :=
  match j with
  | Json.str t => t == s
  | _ => false

/-- Python `dict.get` over the field list of a decoded JSON object; a later
duplicate key overwrites an earlier one, as in `json.loads`. -/
def dictGet (kvs : List (String × Json)) (k : String) : Option Json :=
  match kvs with
  | [] => none
  | p :: rest =>
    match dictGet rest k with
    | some v => some v
    | none => if p.1 == k then some p.2 else none

/-- A subtask record, `{"title": ..., "done": ...}` (app.py:258). -/
structure Subtask where
  title : String
  done : Bool
deriving DecidableEq, Repr

/-- A task record as built by `new_task_dict` (app.py:53-63).  `created_at`
and `due` are their ISO string forms, `id` the UUID string. -/
structure Task where
  id : String
  title : String
  done : Bool
  created_at : String
  due : Option String
  priority : String
  tags : List String
  subtasks : List Subtask
deriving DecidableEq, Repr

/-- `new_task_dict` (app.py:53-63).  The nondeterministic `uuid.uuid4()` and
`datetime.now()` values are passed in; `due.isoformat()` is the string held
by the `due` argument. -/
def new_task_dict (id created_at : String) (title : String) (due : Option String)
    (priority : String) (tags : List String) : Task :=
  { id := id
    title := pystrip title
    done := false
    created_at := created_at
    due := due
    priority := priority
    tags := tags
    subtasks := [] }

/-- `task_matches_filters` (app.py:215-222), with the three sidebar values
(`show_only_open`, `selected_priority`, `tag_filter`) passed explicitly.
`tag_filter` reaches the predicate already stripped (app.py:166), so its
Python truthiness is plain non-emptiness. -/
def task_matches_filters (show_only_open : Bool) (selected_priority : List String)
    (tag_filter : String) (t : Task) : Bool :=
  if show_only_open && t.done then false
  else if !selected_priority.isEmpty && !(selected_priority.contains t.priority) then false
  else if tag_filter != "" then t.tags.contains tag_filter
  else true

/-- The list comprehension `[t for t in tasks if task_matches_filters(t)]`
(app.py:225). -/
def filterTasks (show_only_open : Bool) (selected_priority : List String)
    (tag_filter : String) (tasks : List Task) : List Task :=
  tasks.filter (task_matches_filters show_only_open selected_priority tag_filter)

/-- Observed outcome of one `model.generate_content` call: either the
transport raised, or it produced a response whose `.text` is `text`.
`error` also covers the unconfigured-client case: with no API key the
`genai` call raises. -/
inductive ProviderCall where
  | error
  | ok (text : String)

/-- The dict returned by `ai_parse_task`.  `priority` is always a string
(the result of `.title()` or the literal `"Medium"`); the other fields hold
whatever JSON values the response supplied. -/
structure ParsedTask where
  title : Json
  priority : String
  due : Json
  tags : Json

/-- The fallback dict `\x7b"title": prompt.strip(), "priority": "Medium",
"due": None, "tags": []\x7d` returned on every failure path of
`ai_parse_task` (app.py:71 and app.py:100). -/
def fallbackParsed (prompt : String) : ParsedTask :=
  { title := Json.str (pystrip prompt)
    priority := "Medium"
    due := Json.null
    tags := Json.arr [] }

/-- `ai_parse_task` (app.py:68-100).  `gemini` is `GEMINI_AVAILABLE`;
`call` the outcome of `model.generate_content`; `loads` models
`pyjson.loads` on the regex match (the match starts with a brace and ends
with one, so a successful decode is an object — its field list; `none` is a
raised decode error, caught by the `except` and landing on the fallback).
A `.title()` call on a truthy non-string priority raises `AttributeError`,
also caught. -/
def ai_parse_task (gemini : Bool) (call : ProviderCall)
    (loads : String → Option (List (String × Json))) (prompt : String) : ParsedTask :=
  if !gemini then fallbackParsed prompt
  else
    match call with
    | ProviderCall.error => fallbackParsed prompt
    | ProviderCall.ok text =>
      match findSpan '{' '}' (pystrip text) with
      | none => fallbackParsed prompt
      | some sub =>
        match loads sub with
        | none => fallbackParsed prompt
        | some data =>
          let prioRaw := (dictGet data "priority").getD Json.null
          let prioVal := if pyTruthy prioRaw then prioRaw else Json.str "Medium"
          match prioVal with
          | Json.str s =>
            { title := (dictGet data "title").getD (Json.str (pystrip prompt))
              priority := pyTitle s
              due := (dictGet data "due").getD Json.null
              tags :=
                let tg := (dictGet data "tags").getD Json.null
                if pyTruthy tg then tg else Json.arr [] }
          | _ => fallbackParsed prompt

/-- `ai_breakdown` (app.py:103-117).  When `gemini` is false the source only
emits a sidebar warning and still attempts the provider call (which, with no
credential configured, raises — the `call = error` case); `gemini` therefore
does not influence the returned list. -/
def ai_breakdown (_gemini : Bool) (call : ProviderCall) : List String :=
  match call with
  | ProviderCall.error => []
  | ProviderCall.ok text =>
    let lines := ((pySplitlines text).filter (fun ln => pystrip ln != "")).map
      (fun ln => pystrip (pyStripBullets ln))
    (lines.filter (fun ln => decide (0 < ln.length) && decide (ln.length ≤ 140))).take 6

/-- Outcome of one step of the dict comprehension in `ai_prioritize`
(app.py:143): the item raises, is skipped by the `if "title" in item`
guard, or contributes a key/value pair. -/
inductive EntryRes where
  | raise
  | skip
  | entry (k : Json) (v : String)

/-- One item of `\x7bitem["title"]: item["priority"].title() for item in
updates if "title" in item\x7d` (app.py:143).  For a non-container item the
`in` test raises `TypeError`; for a list or string item that passes the `in`
test, the subsequent `item["title"]` indexing raises `TypeError`; for an
object, a missing `"priority"` key raises `KeyError` and `.title()` on a
non-string priority raises `AttributeError`.  Any raise aborts the whole
comprehension. -/
def mappingEntry (item : Json) : EntryRes :=
  match item with
  | Json.obj kvs =>
    if kvs.any (fun p => p.1 == "title") then
      match dictGet kvs "title" with
      | none => EntryRes.raise
      | some k =>
        match dictGet kvs "priority" with
        | none => EntryRes.raise
        | some (Json.str s) => EntryRes.entry k (pyTitle s)
        | some _ => EntryRes.raise
    else EntryRes.skip
  | Json.arr xs => if xs.any (fun j => jsonEqStr j "title") then EntryRes.raise else EntryRes.skip
  | Json.str s => if hasSubstr "title".data s.data then EntryRes.raise else EntryRes.skip
  | _ => EntryRes.raise

/-- The full dict comprehension of app.py:143; `none` when any item raised
(the exception is caught at app.py:148 before any task is mutated). -/
def buildMapping : List Json → Option (List (Json × String))
  | [] => some []
  | item :: rest =>
    match mappingEntry item with
    | EntryRes.raise => none
    | EntryRes.skip => buildMapping rest
    | EntryRes.entry k v => (buildMapping rest).map (fun m => (k, v) :: m)

/-- Lookup of a string key in the comprehension's dict: a later duplicate
key overwrote an earlier one, so the last matching pair wins. -/
def mapLookup (m : List (Json × String)) (s : String) : Option String :=
  match m with
  | [] => none
  | p :: rest =>
    match mapLookup rest s with
    | some v => some v
    | none => if jsonEqStr p.1 s then some p.2 else none

/-- The mutation loop of app.py:144-146: set `t["priority"]` to the mapped
value for every task whose title has an entry, leave the rest alone. -/
def applyMap (m : List (Json × String)) (tasks : List Task) : List Task :=
  tasks.map (fun t =>
    match mapLookup m t.title with
    | some p => { t with priority := p }
    | none => t)

/-- The mapping `ai_prioritize` builds from the provider response
(app.py:135-143): `none` on every path on which no mapping is applied — the
call raised, the regex found no bracket span (control skips the `if match`
block), the decode raised, or the comprehension raised. -/
def responseMapping (call : ProviderCall)
    (loadsArr : String → Option (List Json)) : Option (List (Json × String)) :=
  match call with
  | ProviderCall.error => none
  | ProviderCall.ok text =>
    match findSpan '[' ']' (pystrip text) with
    | none => none
    | some sub =>
      match loadsArr sub with
      | none => none
      | some updates => buildMapping updates

/-- `ai_prioritize` (app.py:120-150).  `loadsArr` models `pyjson.loads` on
the bracket-delimited match (a successful decode of such text is an array).
Every failure path returns the input list unmutated: the comprehension
completes before the first task is touched. -/
def ai_prioritize (gemini : Bool) (call : ProviderCall)
    (loadsArr : String → Option (List Json)) (tasks : List Task) : List Task :=
  if !gemini || tasks.isEmpty then tasks
  else
    match responseMapping call loadsArr with
    | none => tasks
    | some m => applyMap m tasks

/-- State of the backing file `tasks.json` as `load_tasks` observes it:
absent, present but unreadable or undecodable (`open`/`json.load` raises),
or decodable as a task list. -/
inductive Store where
  | absent
  | unreadable
  | stored (tasks : List Task)
deriving DecidableEq

/-- `load_tasks` (app.py:29-41).  `cache` is `st.session_state["tasks"]`
(when the key is present); the result pairs the returned list with the
session cache afterwards. -/
def load_tasks (cache : Option (List Task)) (store : Store) :
    List Task × Option (List Task) :=
  match cache with
  | some ts => (ts, some ts)
  | none =>
    let ts :=
      match store with
      | Store.absent => []
      | Store.unreadable => []
      | Store.stored c => c
    (ts, some ts)

/-- A `json.loads` oracle that fails on every input (all-malformed JSON). -/
def loads0 : String → Option (List (String × Json)) := fun _ => none

/-- A `json.loads` oracle for arrays that fails on every input. -/
def loadsArr0 : String → Option (List Json) := fun _ => none

/-- A provider response whose JSON object carries an out-of-enum priority. -/
def respUrgent : String := "\x7b\"title\": \"pay bills\", \"priority\": \"urgent\"\x7d"

/-- Value of `json.loads` at `respUrgent` (and decode failure elsewhere). -/
def loadsUrgent : String → Option (List (String × Json)) :=
  fun s =>
    if s = respUrgent then
      some [("title", Json.str "pay bills"), ("priority", Json.str "urgent")]
    else none

/-- A provider response whose JSON object has null `priority` and `tags`. -/
def respNullPrio : String := "\x7b\"priority\": null, \"tags\": null\x7d"

/-- Value of `json.loads` at `respNullPrio` (and decode failure elsewhere). -/
def loadsNullPrio : String → Option (List (String × Json)) :=
  fun s =>
    if s = respNullPrio then some [("priority", Json.null), ("tags", Json.null)]
    else none

/-- A reprioritize response naming a title that matches no task. -/
def respArrOther : String := "[\x7b\"title\": \"other\", \"priority\": \"high\"\x7d]"

/-- Value of `json.loads` at `respArrOther` (and decode failure elsewhere). -/
def loadsArrOther : String → Option (List Json) :=
  fun s =>
    if s = respArrOther then
      some [Json.obj [("title", Json.str "other"), ("priority", Json.str "high")]]
    else none

/-- A completed task carrying tag `"x"`. -/
def tDoneTagged : Task :=
  { id := "1", title := "a", done := true, created_at := "c", due := none,
    priority := "Medium", tags := ["x"], subtasks := [] }

/-- An open medium-priority task titled `"a"`. -/
def tMedium : Task :=
  { id := "2", title := "a", done := false, created_at := "c", due := none,
    priority := "Medium", tags := [], subtasks := [] }

/-- Fields of a task other than `priority` agree (the frame `ai_prioritize`
must preserve). -/
def frameEq (a b : Task) : Prop :=
  a.id = b.id ∧ a.title = b.title ∧ a.done = b.done ∧ a.created_at = b.created_at ∧
    a.due = b.due ∧ a.tags = b.tags ∧ a.subtasks = b.subtasks

/-- Pointwise characterisation of `task_matches_filters`: the three sidebar
predicates combine by logical AND. -/
theorem task_matches_filters_eq (so : Bool) (sp : List String) (tf : String) (t : Task) :
    task_matches_filters so sp tf t =
      ((!(so && t.done)) && (sp.isEmpty || sp.contains t.priority) &&
        (tf == "" || t.tags.contains tf)) := by
  unfold task_matches_filters
  cases h1 : so && t.done <;> cases h2 : sp.isEmpty <;>
    cases h3 : sp.contains t.priority <;> cases h4 : tf == "" <;>
      simp [h1, h2, h3, h4, bne]

/-- Claim C1 (amended): `filter` applies the three predicates with AND
semantics — a task is included exactly when it passes the open-only check,
the priority-membership check, and (when the tag filter is non-blank) the
exact tag-membership check.  A non-blank tag filter does not bypass the
other predicates. -/
theorem C1_filter_and_semantics (so : Bool) (sp : List String) (tf : String)
    (tasks : List Task) :
    filterTasks so sp tf tasks =
      tasks.filter (fun t =>
        (!(so && t.done)) && (sp.isEmpty || sp.contains t.priority) &&
          (tf == "" || t.tags.contains tf)) := by
  unfold filterTasks
  exact List.filter_congr (fun t _ => task_matches_filters_eq so sp tf t)

/-- Claim C1 counterexample: with the open-only flag set, a completed task
whose tags contain the (non-blank) filter string `"x"` is excluded, so with
a non-blank tag filter `filter` does not return exactly the tag-matching
tasks. -/
theorem C1_counterexample :
    decide (filterTasks true [] "x" [tDoneTagged] = [tDoneTagged]) = false ∧
    tDoneTagged.tags.contains "x" = true := by decide

/-- Claim C2 (amended): creating a task with title `"  Buy milk  "`, due
`2024-03-01`, priority `"low"` and tags `["groceries", "", "groceries"]`
yields a stored Task whose title is trimmed to `"Buy milk"`, but whose
priority `"low"` and tags `["groceries", "", "groceries"]` are stored
verbatim — `new_task_dict` performs no priority normalisation and no tag
trimming or deduplication. -/
theorem C2_create_verbatim :
    new_task_dict "id0" "t0" "  Buy milk  " (some "2024-03-01") "low"
        ["groceries", "", "groceries"] =
      { id := "id0", title := "Buy milk", done := false, created_at := "t0",
        due := some "2024-03-01", priority := "low",
        tags := ["groceries", "", "groceries"], subtasks := [] } := by decide

/-- Claim C2 counterexample: at the claim's own input, the stored priority
is not `"Low"` and the stored tags are not `["groceries"]`. -/
theorem C2_counterexample :
    decide ((new_task_dict "id0" "t0" "  Buy milk  " (some "2024-03-01") "low"
        ["groceries", "", "groceries"]).priority = "Low") = false ∧
    decide ((new_task_dict "id0" "t0" "  Buy milk  " (some "2024-03-01") "low"
        ["groceries", "", "groceries"]).tags = ["groceries"]) = false := by decide

/-- Claim C3 (code bug evidence): when the provider responds with priority
`"urgent"`, `ai_parse_task` returns `"Urgent"` — a value outside
`\x7bHigh, Medium, Low\x7d` — and the AI-add path stores it verbatim via
`new_task_dict`, violating the three-value invariant the rest of the code
assumes (app.py:235 indexes `["High", "Medium", "Low"]` by the stored
value). -/
theorem C3_priority_escape :
    (ai_parse_task true (ProviderCall.ok respUrgent) loadsUrgent "pay bills").priority
        = "Urgent" ∧
    (["High", "Medium", "Low"] : List String).contains "Urgent" = false ∧
    (new_task_dict "id1" "t1" "pay bills" none
        (ai_parse_task true (ProviderCall.ok respUrgent) loadsUrgent "pay bills").priority
        []).priority = "Urgent" := by decide

/-- Claim C4: whenever `ai_parse_task` fails — gateway disabled, transport
error, no brace-delimited JSON object in the response, or a JSON decode
failure — it returns exactly the all-default fallback dict, and (being a
total function whose exception paths are the enumerated branches) never
propagates an error to the caller. -/
theorem C4_parse_fallback (gemini : Bool) (call : ProviderCall)
    (loads : String → Option (List (String × Json))) (prompt : String)
    (h : gemini = false ∨ call = ProviderCall.error ∨
      (∃ text, call = ProviderCall.ok text ∧ findSpan '{' '}' (pystrip text) = none) ∨
      (∃ text sub, call = ProviderCall.ok text ∧
        findSpan '{' '}' (pystrip text) = some sub ∧ loads sub = none)) :
    ai_parse_task gemini call loads prompt = fallbackParsed prompt := by
  rcases h with h | h | ⟨text, hc, hf⟩ | ⟨text, sub, hc, hf, hl⟩
  · simp [ai_parse_task, h]
  · cases gemini <;> simp [ai_parse_task, h]
  · cases gemini <;> simp [ai_parse_task, hc, hf]
  · cases gemini <;> simp [ai_parse_task, hc, hf, hl]

/-- Claim C4 witness: the disabled gateway returns the fallback on the
spec's own example prompt. -/
theorem C4_witness :
    ai_parse_task false ProviderCall.error loads0 "Call mom tomorrow" =
      fallbackParsed "Call mom tomorrow" :=
  C4_parse_fallback false ProviderCall.error loads0 "Call mom tomorrow" (Or.inl rfl)

/-- Claim C5: when the provider call fails — which is in particular what
happens when the gateway is disabled, since the unconfigured client raises —
`ai_breakdown` returns the empty list. -/
theorem C5_breakdown_empty (gemini : Bool) :
    ai_breakdown gemini ProviderCall.error = [] := rfl

/-- Claim C6: for every provider response text, `ai_breakdown` returns at
most 6 entries, each non-blank and at most 140 characters long. -/
theorem C6_breakdown_bounds (gemini : Bool) (text : String) :
    (ai_breakdown gemini (ProviderCall.ok text)).length ≤ 6 ∧
    ∀ ln ∈ ai_breakdown gemini (ProviderCall.ok text), ln ≠ "" ∧ ln.length ≤ 140 := by
  constructor
  · unfold ai_breakdown
    simp [List.length_take]
  · intro ln hln
    unfold ai_breakdown at hln
    have h1 : ln ∈ (((pySplitlines text).filter (fun l => pystrip l != "")).map
        (fun l => pystrip (pyStripBullets l))).filter
          (fun l => decide (0 < l.length) && decide (l.length ≤ 140)) :=
      List.mem_of_mem_take hln
    have h2 := (List.mem_filter.mp h1).2
    simp only [Bool.and_eq_true, decide_eq_true_eq] at h2
    refine ⟨?_, h2.2⟩
    intro he
    rw [he] at h2
    exact absurd h2.1 (by decide)

/-- Claim C6 witness: the bounds hold on a concrete bullet-list response. -/
theorem C6_witness :
    (ai_breakdown true (ProviderCall.ok "- plan\n- write\n- review")).length ≤ 6 ∧
    ∀ ln ∈ ai_breakdown true (ProviderCall.ok "- plan\n- write\n- review"),
      ln ≠ "" ∧ ln.length ≤ 140 :=
  C6_breakdown_bounds true "- plan\n- write\n- review"

/-- Pointwise: a task whose title has no entry in `m` keeps its priority
under `applyMap m`. -/
theorem forall₂_lookup_none_applyMap (m : List (Json × String)) (l : List Task) :
    List.Forall₂ (fun a b => mapLookup m a.title = none → b.priority = a.priority)
      l (applyMap m l) := by
  induction l with
  | nil => exact List.Forall₂.nil
  | cons t ts ih =>
    refine List.Forall₂.cons (fun hnone => ?_) ih
    show (match mapLookup m t.title with
      | some p => { t with priority := p }
      | none => t).priority = t.priority
    rw [hnone]

/-- Pointwise reflexive form of the priority-preservation relation. -/
theorem forall₂_lookup_none_self (m : List (Json × String)) (l : List Task) :
    List.Forall₂ (fun a b => mapLookup m a.title = none → b.priority = a.priority) l l := by
  induction l with
  | nil => exact List.Forall₂.nil
  | cons t ts ih => exact List.Forall₂.cons (fun _ => rfl) ih

/-- Claim C7: `ai_prioritize` returns every task unchanged when the gateway
is disabled or the provider call fails (the mapping comprehension completes
before any task is mutated, so no partial mutation escapes), and whenever a
mapping was built from the response, each task whose title has no entry in
it keeps its priority in the corresponding output position. -/
theorem C7_reprioritize_unchanged (gemini : Bool) (call : ProviderCall)
    (loadsArr : String → Option (List Json)) (tasks : List Task) :
    ai_prioritize false call loadsArr tasks = tasks ∧
    ai_prioritize gemini ProviderCall.error loadsArr tasks = tasks ∧
    ∀ m, responseMapping call loadsArr = some m →
      List.Forall₂ (fun a b => mapLookup m a.title = none → b.priority = a.priority)
        tasks (ai_prioritize gemini call loadsArr tasks) := by
  refine ⟨by simp [ai_prioritize], ?_, ?_⟩
  · cases gemini
    · simp [ai_prioritize]
    · by_cases he : tasks.isEmpty <;> simp [ai_prioritize, responseMapping, he]
  · intro m hm
    unfold ai_prioritize
    by_cases hg : (!gemini || tasks.isEmpty) = true
    · rw [if_pos hg]
      exact forall₂_lookup_none_self m tasks
    · rw [if_neg hg, hm]
      exact forall₂_lookup_none_applyMap m tasks

/-- Claim C7 witness: a provider mapping naming only the unrelated title
`"other"` leaves the single task `tMedium` with its original priority. -/
theorem C7_witness :
    (ai_prioritize true (ProviderCall.ok respArrOther) loadsArrOther [tMedium]).map
      Task.priority = ["Medium"] := by
  have h := (C7_reprioritize_unchanged true (ProviderCall.ok respArrOther) loadsArrOther
    [tMedium]).2.2 [(Json.str "other", "High")] rfl
  cases h with
  | cons hab htail =>
    cases htail
    exact congrArg (fun p => [p]) (hab rfl)

/-- Claim C8: on a fresh session (no cached list), a missing backing file
and an unreadable or undecodable one both load as the empty task list, and
the absence of the file is observably equivalent to a stored empty list;
being a total function whose `except` branch is the `unreadable` case,
`load_tasks` never propagates an error. -/
theorem C8_load_soft (store : Store) :
    ((store = Store.absent ∨ store = Store.unreadable) → (load_tasks none store).1 = []) ∧
    load_tasks none Store.absent = load_tasks none (Store.stored []) := by
  constructor
  · rintro (rfl | rfl) <;> rfl
  · rfl

/-- Claim C8 witness: the empty-result and equivalence facts at the absent
store. -/
theorem C8_witness :
    (load_tasks none Store.absent).1 = [] ∧
    load_tasks none Store.absent = load_tasks none (Store.stored []) :=
  ⟨(C8_load_soft Store.absent).1 (Or.inl rfl), (C8_load_soft Store.absent).2⟩

/-- Every task is `frameEq` to itself. -/
theorem frameEq_refl (t : Task) : frameEq t t :=
  ⟨rfl, rfl, rfl, rfl, rfl, rfl, rfl⟩

/-- A list is pointwise `frameEq` to itself. -/
theorem forall₂_frameEq_self (l : List Task) : List.Forall₂ frameEq l l := by
  induction l with
  | nil => exact List.Forall₂.nil
  | cons t ts ih => exact List.Forall₂.cons (frameEq_refl t) ih

/-- `applyMap` only ever rewrites the `priority` field. -/
theorem forall₂_frameEq_applyMap (m : List (Json × String)) (l : List Task) :
    List.Forall₂ frameEq l (applyMap m l) := by
  induction l with
  | nil => exact List.Forall₂.nil
  | cons t ts ih =>
    refine List.Forall₂.cons ?_ ih
    show frameEq t (match mapLookup m t.title with
      | some p => { t with priority := p }
      | none => t)
    cases mapLookup m t.title
    · exact frameEq_refl t
    · exact ⟨rfl, rfl, rfl, rfl, rfl, rfl, rfl⟩

/-- Claim C9: for every input list and provider response, `ai_prioritize`
preserves the list's length and order, and leaves every field of each task
other than `priority` (id, title, done, created_at, due, tags, subtasks)
unchanged in the corresponding output position. -/
theorem C9_reprioritize_frame (gemini : Bool) (call : ProviderCall)
    (loadsArr : String → Option (List Json)) (tasks : List Task) :
    (ai_prioritize gemini call loadsArr tasks).length = tasks.length ∧
    List.Forall₂ frameEq tasks (ai_prioritize gemini call loadsArr tasks) := by
  have hf : List.Forall₂ frameEq tasks (ai_prioritize gemini call loadsArr tasks) := by
    unfold ai_prioritize
    by_cases hg : (!gemini || tasks.isEmpty) = true
    · rw [if_pos hg]
      exact forall₂_frameEq_self tasks
    · rw [if_neg hg]
      cases responseMapping call loadsArr
      · exact forall₂_frameEq_self tasks
      · exact forall₂_frameEq_applyMap _ tasks
  exact ⟨hf.length_eq.symm, hf⟩

/-- Claim C10: independently of each other, a present-but-null (or
empty-string) `"priority"` key decodes to priority `"Medium"`, and a
present-but-null `"tags"` key decodes to the empty tag array — the same
defaults as for missing keys.  The tags half holds whatever the priority
value is: on the success path the null is coerced by `or []`, and when a
truthy non-string priority diverts the call to the fallback, the fallback's
tags are the empty array as well. -/
theorem C10_null_defaults (text sub : String)
    (loads : String → Option (List (String × Json)))
    (data : List (String × Json)) (prompt : String)
    (h1 : findSpan '{' '}' (pystrip text) = some sub)
    (h2 : loads sub = some data) :
    ((dictGet data "priority" = some Json.null ∨
        dictGet data "priority" = some (Json.str "")) →
      (ai_parse_task true (ProviderCall.ok text) loads prompt).priority = "Medium") ∧
    (dictGet data "tags" = some Json.null →
      (ai_parse_task true (ProviderCall.ok text) loads prompt).tags = Json.arr []) := by
  constructor
  · rintro (hp | hp) <;>
      simp [ai_parse_task, h1, h2, hp, pyTruthy] <;> decide
  · intro ht
    simp only [ai_parse_task, h1, h2, Bool.not_true, Bool.false_eq_true, if_false]
    split
    · simp [ht, pyTruthy]
    · rfl

/-- Claim C10 witness: both defaults, each obtained from its own hypothesis
alone, on a concrete response carrying null `priority` and `tags`. -/
theorem C10_witness :
    (ai_parse_task true (ProviderCall.ok respNullPrio) loadsNullPrio "x").priority =
      "Medium" ∧
    (ai_parse_task true (ProviderCall.ok respNullPrio) loadsNullPrio "x").tags =
      Json.arr [] :=
  ⟨(C10_null_defaults respNullPrio respNullPrio loadsNullPrio
      [("priority", Json.null), ("tags", Json.null)] "x" rfl rfl).1 (Or.inl rfl),
    (C10_null_defaults respNullPrio respNullPrio loadsNullPrio
      [("priority", Json.null), ("tags", Json.null)] "x" rfl rfl).2 rfl⟩

end TodoApp
